import Mathlib

/-!
Verification of the gro api-client core (src/api/client/gro_client.py, cfg.py)
against its specification.

Shallow embedding conventions:
* Python floats are modelled as exact rationals (ℚ).
* A data-point dict is the record `Point`; optional / nullable dict entries
  are `Option` fields.
* `self.lookup('units', id).get('baseConvFactor')` is an oracle
  `lookup : Int → ConvFactor` passed as a parameter; an absent `factor`
  entry is `none`, an absent `offset` entry is `none` (read back with the
  Python default `.get('offset', 0)`).
* Raised exceptions are `Except.error`.
-/

set_option autoImplicit false

namespace GroClient

/-- An observation dict as returned by `get_data_points`
(see the response examples in the `get_data_points` docstring).
`value` and `unit_id` may be null; `source_id` is absent from the fetch
response (`none`) until `add_points_to_df` stamps it.  Dates are modelled
as already-canonical integers (the `pandas.to_datetime` parse is a
canonicalisation the model does not need to repeat). -/
structure Point where
  value : Option ℚ
  unit_id : Option Int
  item_id : Int
  metric_id : Int
  region_id : Int
  partner_region_id : Int
  frequency_id : Int
  source_id : Option Int
  reporting_date : Option Int
  start_date : Option Int
  end_date : Option Int
  deriving DecidableEq, Repr

/-- The `baseConvFactor` dict of a unit: `factor` may be absent (`none`),
`offset` may be absent and defaults to 0 when read. -/
structure ConvFactor where
  factor : Option ℚ
  offset : Option ℚ
  deriving DecidableEq, Repr

/-- Python truthiness of `conv_factor.get('factor')`:
false when the entry is absent (None) or zero. -/
def factorTruthy (c : ConvFactor) : Bool :=
  match c.factor with
  | none => false
  | some f => decide (f ≠ 0)

/-- Error raised by `convert_unit`:
`'unit_id {} is not convertible'.format(uid)`. -/
inductive ConvError where
  | notConvertible (uid : Int)
  deriving DecidableEq, Repr

/-- Model of `GroClient.convert_unit` (gro_client.py lines 503-527).
`lookup uid` models `self.lookup('units', uid).get('baseConvFactor')`. -/
def convert_unit (lookup : Int → ConvFactor) (point : Point)
    (target_unit_id : Int) : Except ConvError Point :=
  match point.unit_id with
  | none => .ok point
  | some uid =>
    if uid = target_unit_id then .ok point
    else
      let from_convert_factor := lookup uid
      if factorTruthy from_convert_factor then
        let to_convert_factor := lookup target_unit_id
        if factorTruthy to_convert_factor then
          let point' :=
            match point.value with
            | none => point
            | some v =>
              let value_in_base_unit :=
                v * from_convert_factor.factor.getD 0
                  + from_convert_factor.offset.getD 0
              let value_target :=
                (value_in_base_unit - to_convert_factor.offset.getD 0)
                  / to_convert_factor.factor.getD 0
              { point with value := some value_target }
          .ok { point' with unit_id := some target_unit_id }
        else .error (.notConvertible target_unit_id)
      else .error (.notConvertible uid)

end GroClient

namespace GroClient

/- Concrete material for evaluating `convert_unit` at the spec's worked
example: unit 1 has factor 1000 offset 0, unit 2 has factor 1 offset 0. -/

/-- Unit table of the spec's worked example (§8). -/
def exampleLookup : Int → ConvFactor := fun uid =>
  if uid = 1 then ⟨some 1000, some 0⟩ else ⟨some 1, some 0⟩

/-- The observation `{value: 100, unit_id: 1}` of the spec's worked example. -/
def examplePoint : Point :=
  { value := some 100, unit_id := some 1, item_id := 274, metric_id := 860032
    region_id := 1215, partner_region_id := 0, frequency_id := 9
    source_id := none, reporting_date := none
    start_date := some 17167, end_date := some 17531 }

end GroClient

namespace GroClient

/-- A unit passes the `not factor` guard iff its `factor` entry is present
and non-zero. -/
theorem factorTruthy_iff (c : ConvFactor) :
    factorTruthy c = true ↔ ∃ f, c.factor = some f ∧ f ≠ 0 := by
  cases c with
  | mk factor offset => cases factor <;> simp [factorTruthy]

end GroClient

namespace GroClient

/-- C2: converting a non-null value between two distinct convertible units
follows the two-hop route through the base unit:
the result is `((value * from.factor + from.offset) - to.offset) / to.factor`. -/
theorem convert_unit_two_hop (lookup : Int → ConvFactor) (point : Point)
    (target : Int) (uid : Int) (v fF tF : ℚ)
    (hu : point.unit_id = some uid) (hne : uid ≠ target)
    (hv : point.value = some v)
    (hfF : (lookup uid).factor = some fF) (hfF0 : fF ≠ 0)
    (htF : (lookup target).factor = some tF) (htF0 : tF ≠ 0) :
    convert_unit lookup point target =
      .ok { point with
            value := some (((v * fF + (lookup uid).offset.getD 0)
                            - (lookup target).offset.getD 0) / tF)
            unit_id := some target } := by
  simp [convert_unit, hu, hv, hfF, htF, factorTruthy, hne, hfF0, htF0]

/-- C2 witness: the spec's worked example, `{value: 100, unit_id: 1}` to
unit 2 with factors 1000 and 1, yields value 100000. -/
theorem convert_unit_two_hop_example :
    (1 : Int) ≠ 2 ∧
    convert_unit exampleLookup examplePoint 2 =
      .ok { examplePoint with value := some 100000, unit_id := some 2 } := by
  constructor
  · decide
  · have h := convert_unit_two_hop exampleLookup examplePoint 2 1 100 1000 1
      (by rfl) (by decide) (by rfl) (by rfl) (by norm_num) (by rfl) (by norm_num)
    rw [h]
    norm_num [exampleLookup]

/-- C3: on a conversion between distinct units, an error is raised exactly
when the source or the target unit has an absent or zero conversion factor;
with both factors defined and non-zero the conversion succeeds (no
unconverted value is ever returned relabeled with the target unit, since
nothing is returned at all in the error case). -/
theorem convert_unit_error_iff (lookup : Int → ConvFactor) (point : Point)
    (target uid : Int) (hu : point.unit_id = some uid) (hne : uid ≠ target) :
    (convert_unit lookup point target).isOk =
      (factorTruthy (lookup uid) && factorTruthy (lookup target)) := by
  simp only [convert_unit, hu, if_neg hne]
  cases hf : factorTruthy (lookup uid) <;>
    cases ht : factorTruthy (lookup target) <;>
      simp [Except.isOk, Except.toBool]

/-- C3 witness: at the worked example both factors are defined and
non-zero, and the conversion from unit 1 to unit 2 indeed succeeds. -/
theorem convert_unit_error_iff_witness :
    (convert_unit exampleLookup examplePoint 2).isOk =
      (factorTruthy (exampleLookup 1) && factorTruthy (exampleLookup 2)) := by
  exact convert_unit_error_iff exampleLookup examplePoint 2 1 rfl (by decide)

/-- C6: converting from unit A to unit B and back to A, with both factors
defined and non-zero, recovers the original observation exactly (the model
computes in exact rational arithmetic). -/
theorem convert_unit_round_trip (lookup : Int → ConvFactor) (x : Point)
    (A B : Int) (hA : x.unit_id = some A)
    (hfA : factorTruthy (lookup A) = true)
    (hfB : factorTruthy (lookup B) = true) :
    (convert_unit lookup x B).bind (fun y => convert_unit lookup y A) =
      .ok x := by
  by_cases hAB : A = B
  · subst hAB
    simp [convert_unit, hA, Except.bind]
  · obtain ⟨fA, hfAeq, hfA0⟩ := (factorTruthy_iff _).mp hfA
    obtain ⟨fB, hfBeq, hfB0⟩ := (factorTruthy_iff _).mp hfB
    obtain ⟨v, u, i1, i2, i3, i4, i5, s, r, d1, d2⟩ := x
    obtain rfl : u = some A := hA
    cases v with
    | none =>
      simp [convert_unit, hAB, Ne.symm hAB, hfA, hfB, Except.bind]
    | some q =>
      simp [convert_unit, hAB, Ne.symm hAB, hfA, hfB, Except.bind,
        hfAeq, hfBeq]
      field_simp

/-- C6 witness: round trip of the worked example through units 1 and 2. -/
theorem convert_unit_round_trip_witness :
    (convert_unit exampleLookup examplePoint 2).bind
        (fun y => convert_unit exampleLookup y 1) = .ok examplePoint := by
  exact convert_unit_round_trip exampleLookup examplePoint 1 2 rfl
    (by norm_num [factorTruthy, exampleLookup])
    (by norm_num [factorTruthy, exampleLookup])

/-- C7: when the observation's unit is null or already the target, the
observation is returned unchanged, for every possible unit table (so no
unit lookup can influence the result) and without any error. -/
theorem convert_unit_identity (point : Point) (target : Int)
    (h : point.unit_id = none ∨ point.unit_id = some target) :
    ∀ lookup : Int → ConvFactor,
      convert_unit lookup point target = .ok point := by
  intro lookup
  cases h with
  | inl h => simp [convert_unit, h]
  | inr h => simp [convert_unit, h]

/-- C7 witness: converting the worked example to its own unit 1 is the
identity under the example unit table. -/
theorem convert_unit_identity_witness :
    convert_unit exampleLookup examplePoint 1 = .ok examplePoint := by
  exact convert_unit_identity examplePoint 1 (Or.inr rfl) exampleLookup

/-- C10: a null value is never replaced by a fabricated number: converting
a null-valued observation between distinct convertible units only relabels
`unit_id`, leaving the value null and every other field unchanged. -/
theorem convert_unit_null_value (lookup : Int → ConvFactor) (point : Point)
    (target uid : Int) (hu : point.unit_id = some uid) (hne : uid ≠ target)
    (hv : point.value = none)
    (hf : factorTruthy (lookup uid) = true)
    (ht : factorTruthy (lookup target) = true) :
    convert_unit lookup point target =
      .ok { point with unit_id := some target } := by
  simp [convert_unit, hu, hne, hv, hf, ht]

/-- C10 witness: a null-valued observation in unit 1 converted to unit 2
keeps its null value. -/
theorem convert_unit_null_value_witness :
    convert_unit exampleLookup { examplePoint with value := none } 2 =
      .ok { examplePoint with value := none, unit_id := some 2 } := by
  exact convert_unit_null_value exampleLookup
    { examplePoint with value := none } 2 1 rfl (by decide) rfl
    (by norm_num [factorTruthy, exampleLookup])
    (by norm_num [factorTruthy, exampleLookup])

/-- C8 counterexample: the claim "all fields other than unit_id unchanged"
fails on the spec's own worked example: the conversion succeeds and the
returned observation's `value` field (100000) differs from the input's
(100). -/
theorem convert_unit_changes_value :
    convert_unit exampleLookup examplePoint 2 =
      .ok { examplePoint with value := some 100000, unit_id := some 2 } ∧
      some (100000 : ℚ) ≠ examplePoint.value := by
  constructor
  · norm_num [convert_unit, examplePoint, exampleLookup, factorTruthy]
  · norm_num [examplePoint]

/-- C8 amended: on a successful conversion to a distinct target unit, the
returned observation has `unit_id` set to the target and every field other
than `unit_id` and `value` unchanged from the input. -/
theorem convert_unit_frame (lookup : Int → ConvFactor) (point p' : Point)
    (target uid : Int) (hu : point.unit_id = some uid) (hne : uid ≠ target)
    (hok : convert_unit lookup point target = .ok p') :
    p'.unit_id = some target ∧
    p'.item_id = point.item_id ∧ p'.metric_id = point.metric_id ∧
    p'.region_id = point.region_id ∧
    p'.partner_region_id = point.partner_region_id ∧
    p'.frequency_id = point.frequency_id ∧ p'.source_id = point.source_id ∧
    p'.reporting_date = point.reporting_date ∧
    p'.start_date = point.start_date ∧ p'.end_date = point.end_date := by
  simp only [convert_unit, hu, if_neg hne] at hok
  cases hf : factorTruthy (lookup uid) <;> rw [hf] at hok
  · simp at hok
  cases ht : factorTruthy (lookup target) <;> rw [ht] at hok
  · simp at hok
  cases hv : point.value <;> rw [hv] at hok <;>
    simp only [if_true, Except.ok.injEq] at hok <;> subst hok <;> simp

/-- C8 amended witness: the worked example's conversion keeps every field
except `unit_id` and `value`. -/
theorem convert_unit_frame_witness :
    ({ examplePoint with value := some 100000, unit_id := some 2 }
        : Point).item_id = examplePoint.item_id := by
  have h := convert_unit_frame exampleLookup examplePoint
    { examplePoint with value := some 100000, unit_id := some 2 } 2 1
    rfl (by decide)
    (by norm_num [convert_unit, examplePoint, exampleLookup, factorTruthy])
  exact h.2.1

end GroClient

namespace GroClient

/-! ### find_data_series (gro_client.py lines 263-342, cfg.py line 20) -/

/-- Constant `cfg.MAX_RESULT_COMBINATION_DEPTH` (cfg.py line 20). -/
def MAX_RESULT_COMBINATION_DEPTH : Nat := 3

/-- A search hit; `find_data_series` uses only its `id` entry
(`entity['id']`, line 328). -/
structure Entity where
  id : Int
  deriving DecidableEq, Repr

/-- The keyword arguments of `find_data_series` (all optional strings). -/
structure FindArgs where
  item : Option String
  metric : Option String
  region : Option String
  partner_region : Option String
  start_date : Option String
  end_date : Option String
  deriving DecidableEq, Repr

/-- Python truthiness of `kwargs.get(key)` for a string keyword:
false when absent (None) or the empty string. -/
def argTruthy : Option String → Bool
  | none => false
  | some s => !s.isEmpty

/-- The keys zipped against a combination (lines 313, 317, 321, 325). -/
inductive EntityKey where
  | item_id
  | metric_id
  | region_id
  | partner_region_id
  deriving DecidableEq, Repr

/-- The `entities` dict passed to `get_data_series(**entities)`:
a partial selection of entity ids. -/
structure SeriesQuery where
  item_id : Option Int
  metric_id : Option Int
  region_id : Option Int
  partner_region_id : Option Int
  deriving DecidableEq, Repr

/-- The empty `entities` dict. -/
def SeriesQuery.empty : SeriesQuery := ⟨none, none, none, none⟩

/-- The `search_results` lists (lines 308-325): one truncated ranked hit-list per
supplied dimension, in the fixed order item, metric, region,
partner_region. -/
def searchResults (search : String → String → List Entity)
    (args : FindArgs) : List (List Entity) :=
  (if argTruthy args.item then
    [(search "items" (args.item.getD "")).take MAX_RESULT_COMBINATION_DEPTH]
   else [])
  ++ (if argTruthy args.metric then
    [(search "metrics" (args.metric.getD "")).take MAX_RESULT_COMBINATION_DEPTH]
   else [])
  ++ (if argTruthy args.region then
    [(search "regions" (args.region.getD "")).take MAX_RESULT_COMBINATION_DEPTH]
   else [])
  ++ (if argTruthy args.partner_region then
    [(search "regions"
        (args.partner_region.getD "")).take MAX_RESULT_COMBINATION_DEPTH]
   else [])

/-- The `keys` list (lines 309-325), parallel to `searchResults`. -/
def searchKeys (args : FindArgs) : List EntityKey :=
  (if argTruthy args.item then [EntityKey.item_id] else [])
  ++ (if argTruthy args.metric then [EntityKey.metric_id] else [])
  ++ (if argTruthy args.region then [EntityKey.region_id] else [])
  ++ (if argTruthy args.partner_region then [EntityKey.partner_region_id]
      else [])

/-- Model of `itertools.product`: Cartesian product of a list of lists, leftmost
list varying slowest; the product of zero lists is the one empty tuple. -/
def itertoolsProduct {α : Type} : List (List α) → List (List α)
  | [] => [[]]
  | l :: ls => l.flatMap (fun x => (itertoolsProduct ls).map (fun t => x :: t))

/-- One `key: id` assignment of `dict(zip(keys, ids))` (line 328). -/
def setEntity (q : SeriesQuery) : EntityKey × Int → SeriesQuery
  | (EntityKey.item_id, v) => { q with item_id := some v }
  | (EntityKey.metric_id, v) => { q with metric_id := some v }
  | (EntityKey.region_id, v) => { q with region_id := some v }
  | (EntityKey.partner_region_id, v) => { q with partner_region_id := some v }

/-- The dict built by zipping `keys` with the ids of a combination (line 328). -/
def entitiesOf (keys : List EntityKey) (comb : List Entity) : SeriesQuery :=
  (keys.zip (comb.map Entity.id)).foldl setEntity SeriesQuery.empty

/-- The candidate entity-id combinations enumerated by the
`for comb in itertools.product(*search_results)` loop (line 327). -/
def findCombos (search : String → String → List Entity)
    (args : FindArgs) : List SeriesQuery :=
  (itertoolsProduct (searchResults search args)).map
    (entitiesOf (searchKeys args))

/-- A series descriptor as returned by `get_data_series`. -/
structure DataSeries where
  item_id : Int
  metric_id : Int
  region_id : Int
  partner_region_id : Int
  frequency_id : Int
  source_id : Int
  start_date : Option String
  end_date : Option String
  deriving DecidableEq, Repr

/-- Stamping of the explicit time-range override onto a returned
descriptor (lines 333-337). -/
def stampDates (args : FindArgs) (ds : DataSeries) : DataSeries :=
  let ds' := if argTruthy args.start_date then
    { ds with start_date := args.start_date } else ds
  if argTruthy args.end_date then { ds' with end_date := args.end_date }
  else ds'

/-- The sweep of lines 326-338: call `get_data_series` on each
combination in order, stamp the date overrides, and concatenate.  The
loop body has no exception handler, so a failing lookup is modelled as
the whole sweep returning that error. -/
def resolveCombos {E : Type} (gds : SeriesQuery → Except E (List DataSeries))
    (args : FindArgs) : List SeriesQuery → Except E (List DataSeries)
  | [] => .ok []
  | q :: rest =>
    match gds q with
    | .error e => .error e
    | .ok data_series_list =>
      match resolveCombos gds args rest with
      | .error e => .error e
      | .ok tail => .ok (data_series_list.map (stampDates args) ++ tail)

/-- Model of `GroClient.find_data_series` (lines 263-342): enumerate combinations,
sweep, then yield `rank_series_by_source(all_data_series)` in order.
`rank` models the external `rank_series_by_source`.  All yields happen
after the sweep, so an error during the sweep yields nothing. -/
def find_data_series {E : Type} (search : String → String → List Entity)
    (gds : SeriesQuery → Except E (List DataSeries))
    (rank : List DataSeries → List DataSeries) (args : FindArgs) :
    Except E (List DataSeries) :=
  (resolveCombos gds args (findCombos search args)).map rank

/- Concrete material for exercising `find_data_series`. -/

/-- A search engine with two item hits (ids 1 and 2) and nothing else. -/
def twoItemSearch : String → String → List Entity := fun t _ =>
  if t = "items" then [⟨1⟩, ⟨2⟩] else []

/-- Arguments supplying only the item dimension. -/
def itemOnlyArgs : FindArgs := ⟨some "corn", none, none, none, none, none⟩

/-- Arguments supplying no dimension at all. -/
def noDimensionArgs : FindArgs := ⟨none, none, none, none, none, none⟩

/-- A concrete series descriptor. -/
def sampleSeries : DataSeries := ⟨2, 10, 100, 0, 9, 5, none, none⟩

/-- A series lookup that fails on item 1 and succeeds on everything else. -/
def failOnItem1 : SeriesQuery → Except Unit (List DataSeries) := fun q =>
  if q.item_id = some 1 then .error () else .ok [sampleSeries]

/-- A four-hit search engine over items and metrics, to exercise
truncation: items 1-4, metrics 5-8. -/
def fourHitSearch : String → String → List Entity := fun t _ =>
  if t = "items" then [⟨1⟩, ⟨2⟩, ⟨3⟩, ⟨4⟩]
  else if t = "metrics" then [⟨5⟩, ⟨6⟩, ⟨7⟩, ⟨8⟩] else []

/-- Arguments supplying the item and metric dimensions. -/
def itemMetricArgs : FindArgs :=
  ⟨some "corn", some "yield", none, none, none, none⟩

end GroClient

namespace GroClient

/-- C1 counterexample: the lookup fails for the first enumerated
combination (item 1) and succeeds for the second (item 2), yet
`find_data_series` yields nothing at all — it aborts with the error
instead of yielding the second combination's result. -/
theorem find_data_series_aborts_on_one_failure :
    failOnItem1 ⟨some 2, none, none, none⟩ = .ok [sampleSeries] ∧
    find_data_series twoItemSearch failOnItem1 id itemOnlyArgs =
      .error () := by
  constructor <;> rfl

/-- C1 amended: if the external lookup fails on any enumerated
combination (all earlier combinations succeeding), `find_data_series`
propagates that error and yields no descriptors at all; the sweep is not
partial-failure tolerant. -/
theorem find_data_series_error_propagation {E : Type}
    (search : String → String → List Entity)
    (gds : SeriesQuery → Except E (List DataSeries))
    (rank : List DataSeries → List DataSeries) (args : FindArgs)
    (pre post : List SeriesQuery) (q : SeriesQuery) (e : E)
    (hsplit : findCombos search args = pre ++ q :: post)
    (hpre : ∀ p ∈ pre, ∃ l, gds p = .ok l)
    (hq : gds q = .error e) :
    find_data_series search gds rank args = .error e := by
  have key : ∀ pre' : List SeriesQuery, (∀ p ∈ pre', ∃ l, gds p = .ok l) →
      resolveCombos gds args (pre' ++ q :: post) = .error e := by
    intro pre'
    induction pre' with
    | nil =>
      intro _
      simp [resolveCombos, hq]
    | cons p ps ih =>
      intro hmem
      obtain ⟨l, hl⟩ := hmem p (by simp)
      have htail := ih (fun x hx => hmem x (by simp [hx]))
      simp [resolveCombos, hl, htail]
  unfold find_data_series
  rw [hsplit, key pre hpre]
  rfl

/-- C1 amended witness: the two-combination scenario, with the failing
combination first. -/
theorem find_data_series_error_propagation_witness :
    find_data_series twoItemSearch failOnItem1 id itemOnlyArgs =
      .error () := by
  exact find_data_series_error_propagation twoItemSearch failOnItem1 id
    itemOnlyArgs [] [⟨some 2, none, none, none⟩] ⟨some 1, none, none, none⟩
    () rfl (by intro p hp; simp at hp) rfl

end GroClient

namespace GroClient

/-- The number of supplied (truthy) dimension keyword arguments. -/
def numSupplied (args : FindArgs) : Nat :=
  (if argTruthy args.item then 1 else 0)
  + (if argTruthy args.metric then 1 else 0)
  + (if argTruthy args.region then 1 else 0)
  + (if argTruthy args.partner_region then 1 else 0)

theorem sum_map_const_nat {α : Type} (l : List α) (c : Nat) :
    (l.map (fun _ => c)).sum = l.length * c := by
  induction l with
  | nil => simp
  | cons x xs ih =>
    rw [List.map_cons, List.sum_cons, ih, List.length_cons, Nat.succ_mul,
      Nat.add_comm]

/-- The Cartesian product of `k` lists, each of length at most `D`, has at
most `D ^ k` tuples. -/
theorem itertoolsProduct_length_le {α : Type} (ls : List (List α)) (D : Nat)
    (h : ∀ l ∈ ls, l.length ≤ D) :
    (itertoolsProduct ls).length ≤ D ^ ls.length := by
  induction ls with
  | nil => simp [itertoolsProduct]
  | cons l ls ih =>
    have hbound := ih (fun m hm => h m (List.mem_cons_of_mem _ hm))
    have h1 : (itertoolsProduct (l :: ls)).length =
        (l.map (fun _ => (itertoolsProduct ls).length)).sum := by
      simp [itertoolsProduct, Function.comp_def]
    rw [h1, sum_map_const_nat, List.length_cons, pow_succ,
      Nat.mul_comm (D ^ ls.length) D]
    exact Nat.mul_le_mul (h l (List.mem_cons_self _ _)) hbound

theorem mem_if_singleton {α : Type} (b : Bool) (x l : α)
    (h : l ∈ if b then [x] else []) : l = x := by
  cases b <;> simp_all

theorem flatMap_singleton_map {α β : Type} (l : List α) (g : α → β) :
    l.flatMap (fun x => [g x]) = l.map g := by
  induction l <;> simp_all

/-- The product of exactly two lists, leftmost-major. -/
theorem itertoolsProduct_pair {α : Type} (l1 l2 : List α) :
    itertoolsProduct [l1, l2] =
      l1.flatMap (fun x => l2.map (fun y => [x, y])) := by
  have h2 : itertoolsProduct [l2] = l2.map (fun y => [y]) := by
    show l2.flatMap (fun y => [[y]]) = _
    exact flatMap_singleton_map l2 (fun y => [y])
  calc itertoolsProduct [l1, l2]
      = l1.flatMap (fun x => (itertoolsProduct [l2]).map (fun t => x :: t)) :=
        rfl
    _ = l1.flatMap (fun x => (l2.map (fun y => [y])).map (fun t => x :: t)) :=
        by rw [h2]
    _ = l1.flatMap (fun x => l2.map (fun y => [x, y])) := by
        simp [List.map_map, Function.comp_def]

theorem entitiesOf_pair (x y : Entity) :
    entitiesOf [EntityKey.item_id, EntityKey.metric_id] [x, y] =
      ⟨some x.id, some y.id, none, none⟩ := rfl

/-- Every per-dimension hit-list is truncated to the configured depth. -/
theorem searchResults_length_le (search : String → String → List Entity)
    (args : FindArgs) :
    ∀ l ∈ searchResults search args,
      l.length ≤ MAX_RESULT_COMBINATION_DEPTH := by
  intro l hl
  have key : ∀ s q : String,
      l = (search s q).take MAX_RESULT_COMBINATION_DEPTH →
      l.length ≤ MAX_RESULT_COMBINATION_DEPTH := by
    intro s q h
    subst h
    rw [List.length_take]
    exact min_le_left _ _
  unfold searchResults at hl
  simp only [List.mem_append] at hl
  rcases hl with ((h | h) | h) | h <;> exact key _ _ (mem_if_singleton _ _ _ h)

/-- There is one truncated hit-list per supplied dimension. -/
theorem searchResults_length (search : String → String → List Entity)
    (args : FindArgs) :
    (searchResults search args).length = numSupplied args := by
  cases hI : argTruthy args.item <;> cases hM : argTruthy args.metric <;>
    cases hR : argTruthy args.region <;>
      cases hP : argTruthy args.partner_region <;>
        simp [searchResults, numSupplied, hI, hM, hR, hP]

set_option linter.unnecessarySeqFocus false in
/-- C4 amended: with `k` supplied dimensions, `find_data_series`
enumerates the Cartesian product of the hit-lists truncated to the
configured depth 3 — at most `3 ^ k` combinations, exactly one (the empty
combination) when no dimension is supplied — and with item and metric
supplied it enumerates exactly the product of the truncated lists in
item-major then metric order, preserving each list's ranking order. -/
theorem findCombos_depth_product (search : String → String → List Entity)
    (args : FindArgs) :
    MAX_RESULT_COMBINATION_DEPTH = 3 ∧
    (findCombos search args).length ≤ 3 ^ numSupplied args ∧
    (numSupplied args = 0 → findCombos search args = [SeriesQuery.empty]) ∧
    (argTruthy args.item = true → argTruthy args.metric = true →
      argTruthy args.region = false → argTruthy args.partner_region = false →
      findCombos search args =
        ((search "items" (args.item.getD "")).take 3).flatMap (fun a =>
          ((search "metrics" (args.metric.getD "")).take 3).map (fun b =>
            ⟨some a.id, some b.id, none, none⟩))) := by
  refine ⟨rfl, ?_, ?_, ?_⟩
  · have h := itertoolsProduct_length_le (searchResults search args) 3
      (fun l hl => searchResults_length_le search args l hl)
    rw [searchResults_length search args] at h
    simpa [findCombos] using h
  · intro h0
    unfold numSupplied at h0
    cases hI : argTruthy args.item <;> cases hM : argTruthy args.metric <;>
      cases hR : argTruthy args.region <;>
        cases hP : argTruthy args.partner_region <;>
          simp only [hI, hM, hR, hP] at h0 <;> simp at h0 <;>
            simp [findCombos, searchResults, searchKeys, itertoolsProduct,
              entitiesOf, SeriesQuery.empty, hI, hM, hR, hP]
  · intro hI hM hR hP
    have hsr : searchResults search args =
        [(search "items" (args.item.getD "")).take 3,
         (search "metrics" (args.metric.getD "")).take 3] := by
      unfold searchResults
      rw [hI, hM, hR, hP]
      simp [MAX_RESULT_COMBINATION_DEPTH]
    have hsk : searchKeys args = [EntityKey.item_id, EntityKey.metric_id] := by
      unfold searchKeys
      rw [hI, hM, hR, hP]
      simp
    unfold findCombos
    rw [hsr, hsk, itertoolsProduct_pair, List.map_flatMap]
    simp [List.map_map, Function.comp_def, entitiesOf_pair]

/-- C4 counterexample: with no dimension supplied the loop does not
enumerate zero combinations — `itertools.product()` yields the single
empty tuple, so exactly one (unconstrained) combination is enumerated. -/
theorem findCombos_no_dimension_is_one :
    findCombos twoItemSearch noDimensionArgs = [SeriesQuery.empty] ∧
    (findCombos twoItemSearch noDimensionArgs).length ≠ 0 := by
  constructor
  · rfl
  · decide

/-- C4 amended witness: items 1-4 and metrics 5-8 are truncated to depth
3 and expanded to the 9 combinations in item-major then metric order. -/
theorem findCombos_depth_product_witness :
    findCombos fourHitSearch itemMetricArgs =
      [⟨some 1, some 5, none, none⟩, ⟨some 1, some 6, none, none⟩,
       ⟨some 1, some 7, none, none⟩, ⟨some 2, some 5, none, none⟩,
       ⟨some 2, some 6, none, none⟩, ⟨some 2, some 7, none, none⟩,
       ⟨some 3, some 5, none, none⟩, ⟨some 3, some 6, none, none⟩,
       ⟨some 3, some 7, none, none⟩] ∧
    (findCombos fourHitSearch itemMetricArgs).length ≤
      3 ^ numSupplied itemMetricArgs := by
  have h := findCombos_depth_product fourHitSearch itemMetricArgs
  refine ⟨?_, h.2.1⟩
  rw [h.2.2.2 rfl rfl rfl rfl]
  rfl

end GroClient

namespace GroClient

/-! ### add_points_to_df and get_df (gro_client.py lines 20-23, 47-99) -/

/-- The identifying column set `DATA_POINTS_UNIQUE_COLS` (lines 20-23)
projected out of a row; the model's batches carry all of these columns. -/
def uniqueKey (p : Point) :
    Int × Int × Int × Int × Int × Option Int × Option Int × Option Int ×
      Option Int :=
  (p.item_id, p.metric_id, p.region_id, p.partner_region_id, p.frequency_id,
   p.source_id, p.reporting_date, p.start_date, p.end_date)

/-- Model of the outer merge on line 99, which joins on
the intersection of the two frames' columns.  Both operands carry the
full `Point` schema here, so a join match is equality of entire rows:
each left row is emitted once per matching right row (or once by itself
when unmatched), and the unmatched right rows are appended. -/
def mergeOuter (left right : List Point) : List Point :=
  left.flatMap (fun l =>
    if (right.filter (fun r => decide (r = l))).isEmpty then [l]
    else right.filter (fun r => decide (r = l)))
  ++ right.filter (fun r => decide (r ∉ left))

/-- Model of `GroClient.add_points_to_df` (lines 70-99): an empty batch is
ignored; otherwise the series' `source_id` is stamped onto every row and
the batch either seeds the empty frame or is outer-merged into it.
(The `pandas.to_datetime` calls canonicalise the date columns; dates are
already canonical integers in the model.  The result of the `set_index`
call on line 96 is discarded by the source, so it has no effect.) -/
def add_points_to_df (df : List Point) (series_source_id : Int)
    (data_points : List Point) : List Point :=
  if data_points.isEmpty then df
  else
    let tmp := data_points.map (fun p =>
      { p with source_id := some series_source_id })
    if df.isEmpty then tmp else mergeOuter df tmp

theorem filter_eq_singleton_of_nodup (B : List Point) (l : Point)
    (hB : B.Nodup) :
    B.filter (fun r => decide (r = l)) = if l ∈ B then [l] else [] := by
  induction B with
  | nil => simp
  | cons b bs ih =>
    rw [List.nodup_cons] at hB
    rw [List.filter_cons]
    by_cases hbl : b = l
    · subst hbl
      simp [ih hB.2, hB.1]
    · have hlb : l ≠ b := fun h => hbl h.symm
      simp [hbl, hlb, ih hB.2]

theorem flatMap_id_of_pointwise {α : Type} (T : List α) (f : α → List α)
    (h : ∀ l ∈ T, f l = [l]) : T.flatMap f = T := by
  induction T with
  | nil => rfl
  | cons t ts ih =>
    rw [List.flatMap_cons, h t (List.mem_cons_self _ _),
      ih (fun l hl => h l (List.mem_cons_of_mem _ hl))]
    rfl

/-- Outer-merging a duplicate-free batch that is already contained in the
table row-for-row leaves the table unchanged. -/
theorem mergeOuter_absorb (T B : List Point) (hB : B.Nodup)
    (hsub : ∀ b ∈ B, b ∈ T) : mergeOuter T B = T := by
  unfold mergeOuter
  have h2 : B.filter (fun r => decide (r ∉ T)) = [] := by
    rw [List.filter_eq_nil_iff]
    intro a ha
    simp [hsub a ha]
  rw [h2, List.append_nil]
  refine flatMap_id_of_pointwise T _ ?_
  intro l _
  rw [filter_eq_singleton_of_nodup B l hB]
  by_cases hl : l ∈ B <;> simp [hl]

/-- Every row of the incoming batch occurs in the merged table. -/
theorem mem_mergeOuter_of_mem_right (T B : List Point) (b : Point)
    (hb : b ∈ B) : b ∈ mergeOuter T B := by
  unfold mergeOuter
  by_cases hbT : b ∈ T
  · refine List.mem_append.mpr (Or.inl ?_)
    refine List.mem_flatMap.mpr ⟨b, hbT, ?_⟩
    have hms : b ∈ B.filter (fun r => decide (r = b)) := by
      simp [List.mem_filter, hb]
    have hne : (B.filter (fun r => decide (r = b))).isEmpty = false := by
      simpa [List.isEmpty_iff] using List.ne_nil_of_mem hms
    simpa [hne] using hms
  · refine List.mem_append.mpr (Or.inr ?_)
    simp [List.mem_filter, hb, hbT]

/-- A merge into a non-empty table is non-empty. -/
theorem mergeOuter_isEmpty_false (T B : List Point)
    (hT : T.isEmpty = false) : (mergeOuter T B).isEmpty = false := by
  cases T with
  | nil => simp at hT
  | cons t ts =>
    unfold mergeOuter
    rw [List.flatMap_cons]
    by_cases hms : (B.filter (fun r => decide (r = t))).isEmpty
    · rw [if_pos hms]
      simp
    · rw [if_neg hms]
      cases hfil : B.filter (fun r => decide (r = t)) with
      | nil => rw [hfil] at hms; simp at hms
      | cons m ms' => simp

/-- C5: folding the same series' identical observation batch into the
accumulated table twice is idempotent: provided the batch has no two rows
sharing the identifying column set, the second identical fold returns the
table of the first fold unchanged — in particular the row count for the
series' identifying keys is unchanged and no duplicate identifying-key
rows are introduced. -/
theorem add_points_to_df_idempotent (df : List Point) (sid : Int)
    (batch : List Point)
    (hkeys : (batch.map (fun p =>
      uniqueKey { p with source_id := some sid })).Nodup) :
    add_points_to_df (add_points_to_df df sid batch) sid batch =
      add_points_to_df df sid batch := by
  by_cases hbe : batch.isEmpty
  · obtain rfl : batch = [] := List.isEmpty_iff.mp hbe
    simp [add_points_to_df]
  · have hbe' : batch.isEmpty = false := Bool.eq_false_iff.mpr hbe
    have hBnd : (batch.map (fun p =>
        { p with source_id := some sid } : Point → Point)).Nodup := by
      refine List.Nodup.of_map uniqueKey ?_
      rw [List.map_map]
      exact hkeys
    have hBne : (batch.map (fun p =>
        { p with source_id := some sid } : Point → Point)).isEmpty = false := by
      cases batch
      · simp at hbe'
      · simp
    by_cases hde : df.isEmpty
    · obtain rfl : df = [] := List.isEmpty_iff.mp hde
      have h1 : add_points_to_df [] sid batch =
          batch.map (fun p => { p with source_id := some sid }) := by
        simp [add_points_to_df, hbe']
      rw [h1]
      have h2 : add_points_to_df
          (batch.map (fun p => { p with source_id := some sid })) sid batch =
          mergeOuter (batch.map (fun p => { p with source_id := some sid }))
            (batch.map (fun p => { p with source_id := some sid })) := by
        simp [add_points_to_df, hbe', hBne]
      rw [h2]
      exact mergeOuter_absorb _ _ hBnd (fun b hb => hb)
    · have hde' : df.isEmpty = false := Bool.eq_false_iff.mpr hde
      have h1 : add_points_to_df df sid batch =
          mergeOuter df (batch.map (fun p =>
            { p with source_id := some sid })) := by
        simp [add_points_to_df, hbe', hde']
      rw [h1]
      have hT1ne : (mergeOuter df (batch.map (fun p =>
          { p with source_id := some sid }))).isEmpty = false :=
        mergeOuter_isEmpty_false _ _ hde'
      have h2 : add_points_to_df (mergeOuter df (batch.map (fun p =>
          { p with source_id := some sid }))) sid batch =
          mergeOuter (mergeOuter df (batch.map (fun p =>
            { p with source_id := some sid })))
            (batch.map (fun p => { p with source_id := some sid })) := by
        simp [add_points_to_df, hbe', hT1ne]
      rw [h2]
      exact mergeOuter_absorb _ _ hBnd
        (fun b hb => mem_mergeOuter_of_mem_right _ _ b hb)

/-- C5 witness: folding a concrete two-row batch twice, first into the
empty table. -/
theorem add_points_to_df_idempotent_witness :
    add_points_to_df (add_points_to_df [] 7
        [examplePoint, { examplePoint with start_date := some 99 }]) 7
        [examplePoint, { examplePoint with start_date := some 99 }] =
      add_points_to_df [] 7
        [examplePoint, { examplePoint with start_date := some 99 }] := by
  exact add_points_to_df_idempotent [] 7
    [examplePoint, { examplePoint with start_date := some 99 }]
    (by simp [uniqueKey, examplePoint])

end GroClient

namespace GroClient

/-- The `while self._data_series_queue` loop of `get_df` (lines 63-68):
`pop()` removes the LAST queued series, so the queue is drained in
reverse; the fetched batch is folded into the frame via
`add_points_to_df`.  A failing fetch raises out of the loop, leaving the
frame in its current state — modelled by returning the frame built so
far together with the error. -/
def drainRev {E : Type} (fetch : DataSeries → Except E (List Point)) :
    List DataSeries → List Point → List Point × Option E
  | [], df => (df, none)
  | s :: rest, df =>
    match fetch s with
    | .error e => (df, some e)
    | .ok data_points =>
      drainRev fetch rest (add_points_to_df df s.source_id data_points)

/-- Model of `GroClient.get_df` (lines 47-68) on state
(pending queue, accumulated frame): drains the queue last-in-first-out.
(The `show_revisions` flag only augments the fetch selection and is
taken as part of `fetch` here.) -/
def get_df {E : Type} (fetch : DataSeries → Except E (List Point))
    (queue : List DataSeries) (df : List Point) : List Point × Option E :=
  drainRev fetch queue.reverse df

theorem drainRev_append_error {E : Type}
    (fetch : DataSeries → Except E (List Point))
    (pts : DataSeries → List Point) (bad : DataSeries)
    (tail : List DataSeries) (e : E) (hbad : fetch bad = .error e) :
    ∀ (done : List DataSeries) (df : List Point),
      (∀ s ∈ done, fetch s = .ok (pts s)) →
      drainRev fetch (done ++ bad :: tail) df =
        (done.foldl (fun acc s => add_points_to_df acc s.source_id (pts s))
          df, some e) := by
  intro done
  induction done with
  | nil =>
    intro df _
    simp [drainRev, hbad]
  | cons s ds ih =>
    intro df hmem
    have hs := hmem s (List.mem_cons_self _ _)
    rw [List.cons_append]
    simp only [drainRev, hs, List.foldl_cons]
    exact ih _ (fun x hx => hmem x (List.mem_cons_of_mem _ hx))

/-- C9: if the fetch for one queued series fails while `get_df` drains
the queue, the error propagates to the caller and the accumulated frame
still holds the fold of every batch fetched before the failure. -/
theorem get_df_preserves_partial_progress {E : Type}
    (fetch : DataSeries → Except E (List Point))
    (pts : DataSeries → List Point) (done rest : List DataSeries)
    (bad : DataSeries) (df : List Point) (e : E)
    (hdone : ∀ s ∈ done, fetch s = .ok (pts s))
    (hbad : fetch bad = .error e) :
    get_df fetch (rest ++ bad :: done.reverse) df =
      (done.foldl (fun acc s => add_points_to_df acc s.source_id (pts s))
        df, some e) := by
  unfold get_df
  have hrev : (rest ++ bad :: done.reverse).reverse =
      done ++ bad :: rest.reverse := by
    simp
  rw [hrev]
  exact drainRev_append_error fetch pts bad rest.reverse e hbad done df hdone

/- Concrete material for exercising `get_df`. -/

/-- A saved series whose fetch succeeds. -/
def goodSeries : DataSeries := ⟨1, 10, 100, 0, 9, 7, none, none⟩

/-- A saved series whose fetch fails. -/
def badSeries : DataSeries := ⟨2, 10, 100, 0, 9, 8, none, none⟩

/-- A fetch that fails exactly on source 8. -/
def failOnSource8 : DataSeries → Except Unit (List Point) := fun s =>
  if s.source_id = 8 then .error () else .ok [examplePoint]

/-- C9 witness: the queue holds the failing series first (popped last);
the good series' batch survives the failure. -/
theorem get_df_preserves_partial_progress_witness :
    get_df failOnSource8 [badSeries, goodSeries] [] =
      ([goodSeries].foldl (fun acc s =>
        add_points_to_df acc s.source_id [examplePoint]) [], some ()) := by
  exact get_df_preserves_partial_progress failOnSource8
    (fun _ => [examplePoint]) [goodSeries] [] badSeries [] ()
    (by intro s hs
        rw [List.mem_singleton] at hs
        subst hs
        rfl)
    rfl

end GroClient
